import Mathlib

/-!
Shallow embedding of the Ulauncher astro-docs repository: the sidebar
navigation tree declared in `astro.config.mjs`, the content document
`src/content/docs/extensions/tutorial.md`, and the content/navigation/build
pipeline of the documentation-site generator the configuration drives.
-/

/-- A content document: identified by a `slug`, with a front-matter `title`
and the list of relative asset paths its body references by image syntax. -/
structure Document where
  slug : String
  title : String
  assetRefs : List String
deriving DecidableEq, Repr

/-- A node of the navigation model: either a leaf link referencing a document
by slug, or a labelled group of child entries (children keep declaration
order). The type permits arbitrary nesting depth. -/
inductive NavEntry where
  | link (label : String) (slug : String)
  | group (label : String) (children : List NavEntry)
deriving Repr

/-- Site configuration: global title, social links, and the sidebar tree.
From `astro.config.mjs` lines 5-35. -/
structure SiteConfig where
  title : String
  social : List (String × String)
  sidebar : List NavEntry

/-- The sidebar declared in `astro.config.mjs` lines 12-32: two groups,
each holding leaf links, in declaration order. -/
def sidebar : List NavEntry :=
  [ .group "Color Themes"
      [ .link "Overview" "themes/themes"
      , .link "Creating custom themes" "themes/custom"
      , .link "Migrating themes" "themes/migrate" ]
  , .group "Extension Development"
      [ .link "Overview" "extensions/overview"
      , .link "Development Tutorial" "extensions/tutorial"
      , .link "Testing & Logging" "extensions/debugging"
      , .link "Examples" "extensions/examples"
      , .link "Migrating extensions" "extensions/migration" ] ]

/-- The whole `defineConfig` value of `astro.config.mjs`. -/
def theSiteConfig : SiteConfig :=
  { title := "Ulauncher"
  , social := [("github", "https://github.com/Ulauncher/Ulauncher")]
  , sidebar := sidebar }

/-- The document `src/content/docs/extensions/tutorial.md`: front-matter
title from lines 1-3, and the three relative image references of its body
(lines 116, 123 and 226). -/
def tutorialDoc : Document :=
  { slug := "extensions/tutorial"
  , title := "Extension Development Tutorial"
  , assetRefs :=
      [ "../../../assets/demo-extension-item-list.png"
      , "../../../assets/extendsion-api-message-flow.png"
      , "../../../assets/demo-extension-results.png" ] }

/-- Modelled from the spec: the Content Store loaded from the content root.
Only `extensions/tutorial.md` is present in this repository snapshot; the
other seven documents referenced by the sidebar are modelled from the
spec's invariant that every `Link.slug` resolves to an existing Document
at build time (spec sections 3 and 8). -/
def theContentStore : List Document :=
  [ { slug := "themes/themes", title := "Color Themes", assetRefs := [] }
  , { slug := "themes/custom", title := "Creating custom themes", assetRefs := [] }
  , { slug := "themes/migrate", title := "Migrating themes", assetRefs := [] }
  , { slug := "extensions/overview", title := "Extensions Overview", assetRefs := [] }
  , tutorialDoc
  , { slug := "extensions/debugging", title := "Testing and Logging", assetRefs := [] }
  , { slug := "extensions/examples", title := "Examples", assetRefs := [] }
  , { slug := "extensions/migration", title := "Migrating extensions", assetRefs := [] } ]

/-- Modelled from the spec: `resolve(slug) -> Document | NotFound`
(spec section 4.1), a lookup of the first document declaring the slug. -/
def resolve (store : List Document) (slug : String) : Option Document :=
  store.find? (fun d => d.slug == slug)

/-- Build errors of the pipeline (spec section 7): a duplicate slug is
fatal and immediate; unresolved slugs are fatal but aggregated. -/
inductive BuildError where
  | duplicateSlug
  | unresolvedSlugs (slugs : List String)
deriving DecidableEq, Repr

/-- Modelled from the spec: the Content Store load phase (spec section 4.1)
scans the content root once and fails the build, fatally, if two documents
declare the same slug. -/
def load (docs : List Document) : Except BuildError (List Document) :=
  if (docs.map Document.slug).Nodup then .ok docs else .error .duplicateSlug

mutual
/-- All `Link` slugs of a navigation entry, in declaration order. -/
def NavEntry.slugs : NavEntry → List String
  | .link _ s => [s]
  | .group _ cs => slugsList cs
/-- All `Link` slugs of a sequence of navigation entries, in order. -/
def slugsList : List NavEntry → List String
  | [] => []
  | e :: es => e.slugs ++ slugsList es
end

mutual
/-- All labels of a navigation entry, in display order (a group's own label
comes before its children's). -/
def NavEntry.labels : NavEntry → List String
  | .link l _ => [l]
  | .group l cs => l :: labelsList cs
/-- All labels of a sequence of navigation entries, in display order. -/
def labelsList : List NavEntry → List String
  | [] => []
  | e :: es => e.labels ++ labelsList es
end

mutual
/-- Modelled from the spec: `validate(tree, store)` (spec section 4.2) on a
single entry — collects the slugs of broken links, exhaustively. -/
def validateEntry (store : List Document) : NavEntry → List String
  | .link _ s => if (resolve store s).isSome then [] else [s]
  | .group _ cs => validateList store cs
/-- Modelled from the spec: `validate(tree, store)` (spec section 4.2) on a
whole tree — collects every broken link in one pass; `[]` means OK. -/
def validateList (store : List Document) : List NavEntry → List String
  | [] => []
  | e :: es => validateEntry store e ++ validateList store es
end

/-- The output path a slug renders to (spec glossary: the slug is also the
output URL path). -/
def outputPath (slug : String) : String := "/" ++ slug ++ "/"

/-- One rendered sidebar item, in display order: groups render as
non-clickable headers, links as anchors to the resolved output path. -/
inductive SidebarItem where
  | header (label : String)
  | anchor (label : String) (href : String)
deriving DecidableEq, Repr

/-- The label displayed by a rendered sidebar item. -/
def itemLabel : SidebarItem → String
  | .header l => l
  | .anchor l _ => l

mutual
/-- Modelled from the spec: `render_sidebar` (spec section 4.2) on one
entry — a group renders as its header followed by its children in
declaration order; a link renders as one anchor. -/
def renderEntry : NavEntry → List SidebarItem
  | .link label slug => [.anchor label (outputPath slug)]
  | .group label cs => .header label :: renderList cs
/-- Modelled from the spec: `render_sidebar` (spec section 4.2) on the whole
tree, preserving declared order exactly. -/
def renderList : List NavEntry → List SidebarItem
  | [] => []
  | e :: es => renderEntry e ++ renderList es
end

/-- HTML text of one rendered sidebar item. -/
def itemHtml : SidebarItem → String
  | .header l => "<h2>" ++ l ++ "</h2>"
  | .anchor l href => "<a href=\x22" ++ href ++ "\x22>" ++ l ++ "</a>"

/-- Modelled from the spec: the sidebar HTML fragment shared by every page. -/
def renderSidebarHtml (tree : List NavEntry) : String :=
  String.join ((renderList tree).map itemHtml)

/-- Modelled from the spec: `render_page(doc, sidebar)` (spec section 4.3)
embeds the shared sidebar fragment and the document's title and body. -/
def renderPage (cfg : SiteConfig) (d : Document) : String :=
  "<html><title>" ++ cfg.title ++ "</title><nav>" ++ renderSidebarHtml cfg.sidebar
    ++ "</nav><main>" ++ d.title ++ "</main></html>"

/-- Modelled from the spec: per-document MissingAsset warnings (spec
section 7c) — referenced assets absent from the available set, reported
as warnings, never fatal. -/
def assetWarnings (avail : List String) (d : Document) : List String :=
  d.assetRefs.filter (fun a => !(avail.contains a))

/-- The emitted static site: one page of HTML bytes per document slug,
plus the accumulated MissingAsset warnings. -/
structure Output where
  pages : List (String × String)
  warnings : List String
deriving DecidableEq, Repr

/-- Modelled from the spec: the one-shot build pipeline
load → validate → render → emit (spec sections 4 and 5). A duplicate slug
aborts before anything else; unresolved slugs are aggregated and abort
before emitting; missing assets only add warnings. -/
def build (avail : List String) (docs : List Document) (cfg : SiteConfig) :
    Except BuildError Output :=
  match load docs with
  | .error e => .error e
  | .ok store =>
    match validateList store cfg.sidebar with
    | [] => .ok { pages := store.map (fun d => (d.slug, renderPage cfg d))
                , warnings := store.flatMap (assetWarnings avail) }
    | errs => .error (.unresolvedSlugs errs)

/-- The warnings of a build result; an aborted build reports none. -/
def warningsOf : Except BuildError Output → List String
  | .ok o => o.warnings
  | .error _ => []

/-- Whether a navigation entry is a leaf link. -/
def isLink : NavEntry → Bool
  | .link _ _ => true
  | .group _ _ => false

/-- Whether a navigation entry is a group all of whose children are leaf
links (the one-level shape this repository's sidebar uses). -/
def isGroupOfLinks : NavEntry → Bool
  | .link _ _ => false
  | .group _ cs => cs.all isLink

/-- A navigation entry with a group nested inside a group: the data model
permits depth beyond the one level this repository uses. -/
def nestedExample : NavEntry :=
  .group "outer" [.group "inner" [.link "leaf" "a/b"]]

/-- The label of a navigation entry. -/
def NavEntry.label : NavEntry → String
  | .link l _ => l
  | .group l _ => l

/-- The labels of an entry's immediate children (empty for a leaf link). -/
def childLabels : NavEntry → List String
  | .link _ _ => []
  | .group _ cs => cs.map NavEntry.label

/-- Boolean pairwise-distinctness of a list of strings. -/
def allDistinct : List String → Bool
  | [] => true
  | x :: xs => !(xs.contains x) && allDistinct xs

/-- A configuration whose sidebar holds one dangling link, used to exercise
the build-time rejection of unresolved slugs. -/
def danglingConfig : SiteConfig :=
  { title := "Ulauncher", social := [], sidebar := [.link "Broken" "missing/slug"] }

/-- A second document declaring the slug of `tutorialDoc`, used to exercise
the duplicate-slug rejection. -/
def dupDoc : Document :=
  { slug := "extensions/tutorial", title := "Tutorial copy", assetRefs := [] }

/-- The spec's worked validation example: documents `a` and `b` only. -/
def exampleStore : List Document :=
  [ { slug := "a", title := "A", assetRefs := [] }
  , { slug := "b", title := "B", assetRefs := [] } ]

/-- The spec's worked validation example: links to `a`, `b`, `missing1`,
`missing2`. -/
def exampleTree : List NavEntry :=
  [ .link "a" "a", .link "b" "b", .link "m1" "missing1", .link "m2" "missing2" ]

/-! Helper lemmas shared by the claim theorems. -/

/-- A successful load returns exactly the scanned documents. -/
theorem load_eq_ok {docs store : List Document} (h : load docs = .ok store) :
    store = docs := by
  unfold load at h
  split at h
  · exact (Except.ok.inj h).symm
  · exact Except.noConfusion h

mutual
/-- Membership in the errors of one entry characterises broken links. -/
theorem mem_validateEntry_iff (store : List Document) (e : NavEntry) (s : String) :
    s ∈ validateEntry store e ↔ s ∈ e.slugs ∧ resolve store s = none := by
  cases e with
  | link l sl =>
    simp only [validateEntry, NavEntry.slugs]
    by_cases h : (resolve store sl).isSome
    · rw [if_pos h]
      constructor
      · intro hmem
        cases hmem
      · rintro ⟨hsl, hc⟩
        rw [List.mem_singleton] at hsl
        subst hsl
        exact absurd hc (Option.isSome_iff_ne_none.mp h)
    · rw [if_neg h]
      rw [Option.not_isSome_iff_eq_none] at h
      simp only [List.mem_singleton]
      constructor
      · rintro rfl
        exact ⟨rfl, h⟩
      · rintro ⟨rfl, _⟩
        rfl
  | group l cs => exact mem_validateList_iff store cs s
/-- Membership in the errors of a tree characterises broken links. -/
theorem mem_validateList_iff (store : List Document) (tree : List NavEntry) (s : String) :
    s ∈ validateList store tree ↔ s ∈ slugsList tree ∧ resolve store s = none := by
  cases tree with
  | nil => simp [validateList, slugsList]
  | cons e es =>
    simp only [validateList, slugsList, List.mem_append]
    rw [mem_validateEntry_iff store e s, mem_validateList_iff store es s]
    tauto
end

mutual
/-- The labels of one rendered entry, in order, are its declared labels. -/
theorem renderEntry_labels (e : NavEntry) :
    (renderEntry e).map itemLabel = e.labels := by
  cases e with
  | link l s => rfl
  | group l cs =>
    show itemLabel (.header l) :: (renderList cs).map itemLabel = l :: labelsList cs
    rw [renderList_labels cs]
    rfl
/-- The labels of a rendered tree, in order, are its declared labels. -/
theorem renderList_labels (tree : List NavEntry) :
    (renderList tree).map itemLabel = labelsList tree := by
  cases tree with
  | nil => rfl
  | cons e es =>
    show (renderEntry e ++ renderList es).map itemLabel = e.labels ++ labelsList es
    rw [List.map_append, renderEntry_labels e, renderList_labels es]
end

/-! The claims. -/

/-- C1: every Link slug of the sidebar declared in `astro.config.mjs`
resolves to a document of the Content Store; the eight declared slugs are
exactly themes/themes, themes/custom, themes/migrate, extensions/overview,
extensions/tutorial, extensions/debugging, extensions/examples and
extensions/migration; and a dangling slug anywhere in a sidebar makes the
build fail (emit no output) rather than surface at runtime. -/
theorem sidebar_links_resolve :
    ((slugsList sidebar).all fun s => (resolve theContentStore s).isSome) = true ∧
    slugsList sidebar = ["themes/themes", "themes/custom", "themes/migrate",
      "extensions/overview", "extensions/tutorial", "extensions/debugging",
      "extensions/examples", "extensions/migration"] ∧
    ∀ (avail : List String) (docs : List Document) (cfg : SiteConfig),
      validateList docs cfg.sidebar ≠ [] → ∀ out, build avail docs cfg ≠ .ok out := by
  refine ⟨rfl, rfl, ?_⟩
  intro avail docs cfg h out hc
  unfold build at hc
  cases hl : load docs with
  | error e =>
    rw [hl] at hc
    exact Except.noConfusion hc
  | ok store =>
    rw [hl] at hc
    dsimp only at hc
    have hs : store = docs := load_eq_ok hl
    subst hs
    cases hv : validateList store cfg.sidebar with
    | nil => exact h hv
    | cons a as =>
      rw [hv] at hc
      exact Except.noConfusion hc

/-- Witness for C1: a sidebar holding the dangling slug `missing/slug` is
rejected at build time against the repository's Content Store. -/
theorem sidebar_links_resolve_witness :
    ∀ out, build [] theContentStore danglingConfig ≠ .ok out :=
  sidebar_links_resolve.2.2 [] theContentStore danglingConfig (by decide)

/-- C2: validation reports a slug exactly when some Link of the tree
references it and it is absent from the store — completeness of the
aggregated, non-fail-fast pass; on the spec's worked example with only
`a` and `b` present, exactly `missing1` and `missing2` are reported. -/
theorem validate_reports_exactly_broken_links :
    (∀ (store : List Document) (tree : List NavEntry) (s : String),
      (s ∈ validateList store tree ↔ s ∈ slugsList tree ∧ resolve store s = none)) ∧
    validateList exampleStore exampleTree = ["missing1", "missing2"] :=
  ⟨mem_validateList_iff, rfl⟩

/-- C3: after a load with pairwise-distinct slugs, resolving any loaded
document's slug returns that document itself. -/
theorem resolve_roundtrip (store : List Document) (D : Document)
    (hnd : (store.map Document.slug).Nodup) (hmem : D ∈ store) :
    resolve store D.slug = some D := by
  induction store with
  | nil => cases hmem
  | cons d ds ih =>
    rw [List.map_cons, List.nodup_cons] at hnd
    rcases List.mem_cons.mp hmem with rfl | hm
    · exact List.find?_cons_of_pos _ (by simp)
    · have hne : (d.slug == D.slug) = false := by
        rw [beq_eq_false_iff_ne]
        intro heq
        apply hnd.1
        rw [heq]
        exact List.mem_map_of_mem Document.slug hm
      have hstep : resolve (d :: ds) D.slug = resolve ds D.slug := by
        simp only [resolve]
        exact List.find?_cons_of_neg _ (by simp [hne])
      rw [hstep]
      exact ih hnd.2 hm

/-- Witness for C3: resolving `extensions/tutorial` in the repository's
Content Store returns the tutorial document, whose front-matter title is
`Extension Development Tutorial`. -/
theorem resolve_roundtrip_witness :
    resolve theContentStore "extensions/tutorial" = some tutorialDoc ∧
    tutorialDoc.title = "Extension Development Tutorial" :=
  ⟨resolve_roundtrip theContentStore tutorialDoc (by decide) (by decide), rfl⟩

/-- C4: rendering preserves the declared order of every tree exactly, and
on this repository's sidebar the display order is the declaration order of
`astro.config.mjs`: the Color Themes group before Extension Development,
each with its links in listed order. -/
theorem render_sidebar_preserves_order :
    (∀ tree : List NavEntry, (renderList tree).map itemLabel = labelsList tree) ∧
    (renderList sidebar).map itemLabel =
      ["Color Themes", "Overview", "Creating custom themes", "Migrating themes",
       "Extension Development", "Overview", "Development Tutorial",
       "Testing & Logging", "Examples", "Migrating extensions"] :=
  ⟨renderList_labels, rfl⟩

/-- C5: two documents sharing a slug make the build report DuplicateSlug
and abort: it emits no output at all. -/
theorem duplicate_slug_aborts (avail : List String) (docs : List Document)
    (cfg : SiteConfig) (h : ¬ (docs.map Document.slug).Nodup) :
    build avail docs cfg = .error .duplicateSlug ∧
    ∀ out, build avail docs cfg ≠ .ok out := by
  have hb : build avail docs cfg = .error .duplicateSlug := by
    unfold build load
    rw [if_neg h]
  refine ⟨hb, ?_⟩
  intro out hc
  rw [hb] at hc
  exact Except.noConfusion hc

/-- Witness for C5: loading the tutorial document twice (same slug twice)
aborts the build with DuplicateSlug. -/
theorem duplicate_slug_aborts_witness :
    build [] [tutorialDoc, dupDoc] theSiteConfig = .error .duplicateSlug :=
  (duplicate_slug_aborts [] [tutorialDoc, dupDoc] theSiteConfig (by decide)).1

/-- C6: asset availability never decides build success — a missing asset
only degrades a page; in particular the tutorial's three relative image
references under `../../../assets/` leave the build succeeding even with
no asset present, each reported as a warning. -/
theorem missing_asset_never_aborts :
    (∀ (a₁ a₂ : List String) (docs : List Document) (cfg : SiteConfig),
      (build a₁ docs cfg).isOk = (build a₂ docs cfg).isOk) ∧
    tutorialDoc.assetRefs =
      ["../../../assets/demo-extension-item-list.png",
       "../../../assets/extendsion-api-message-flow.png",
       "../../../assets/demo-extension-results.png"] ∧
    (build [] theContentStore theSiteConfig).isOk = true ∧
    (tutorialDoc.assetRefs.all fun r =>
      (warningsOf (build [] theContentStore theSiteConfig)).contains r) = true := by
  refine ⟨?_, rfl, rfl, rfl⟩
  intro a₁ a₂ docs cfg
  unfold build
  cases hl : load docs with
  | error e => rfl
  | ok store =>
    dsimp only
    cases hv : validateList store cfg.sidebar with
    | nil => rfl
    | cons x xs => rfl

/-- C7: the build pipeline is a function of the available assets, the
scanned documents and the configuration alone — two runs on equal inputs
produce byte-identical output. -/
theorem build_deterministic (a₁ a₂ : List String) (d₁ d₂ : List Document)
    (c₁ c₂ : SiteConfig) (ha : a₁ = a₂) (hd : d₁ = d₂) (hc : c₁ = c₂) :
    build a₁ d₁ c₁ = build a₂ d₂ c₂ := by
  rw [ha, hd, hc]

/-- Witness for C7: two runs on this repository's own input agree. -/
theorem build_deterministic_witness :
    build [] theContentStore theSiteConfig = build [] theContentStore theSiteConfig :=
  build_deterministic [] [] theContentStore theContentStore theSiteConfig theSiteConfig
    rfl rfl rfl

/-- C8: this repository's sidebar is exactly one level deep — every root
entry is a group all of whose children are leaf links — while the NavEntry
type itself admits deeper nesting, exhibited by `nestedExample`. -/
theorem sidebar_is_one_level :
    (sidebar.all isGroupOfLinks) = true ∧ isGroupOfLinks nestedExample = false :=
  ⟨rfl, rfl⟩

/-- C9: the eight slugs of this sidebar are pairwise distinct, hence so are
the documents they resolve to and the output paths they map to. -/
theorem sidebar_slugs_nodup :
    (slugsList sidebar).Nodup ∧
    ((slugsList sidebar).map (resolve theContentStore)).Nodup ∧
    ((slugsList sidebar).map outputPath).Nodup :=
  ⟨by decide, by decide, by decide⟩

/-- C10: within each group of this sidebar the child labels are pairwise
distinct, yet `Overview` occurs as a child label of both groups, and the
cross-group duplication is accepted — the build still succeeds. -/
theorem group_labels_locally_distinct :
    (sidebar.all fun e => allDistinct (childLabels e)) = true ∧
    sidebar.map (fun e => (childLabels e).contains "Overview") = [true, true] ∧
    (build [] theContentStore theSiteConfig).isOk = true :=
  ⟨rfl, rfl, rfl⟩
